import Mathlib

/-
Verification of the foundation settlement and tipping analysis engine
(src/foundation_settlement.py) against its specification.

Floating-point values of the Python source are modelled as exact rationals;
the rotation angle, which uses arctan, is modelled over the reals.
Python raises ZeroDivisionError on float division by zero; fallible steps
are therefore modelled with Except.
-/

/-- Name of the crane operation load case. -/
def craneCase : String := "Crane Operation"

/-- Name of the storm rear load case. -/
def stormRearCase : String := "Storm Rear"

/-- Name of the storm front load case. -/
def stormFrontCase : String := "Storm Front"

/-- Name of the assembly load case. -/
def assemblyCase : String := "During Assembly"

/-- Message carried by a Python ZeroDivisionError. -/
def zeroDivisionMsg : String := "ZeroDivisionError"

/-- Verdict string returned by check_tipping when there is a tipping risk. -/
def tippingYes : String := "Tipping Risk: YES"

/-- Verdict string returned by check_tipping when there is no tipping risk. -/
def tippingNo : String := "Tipping Risk: NO"

/-- The load_case_factors dictionary of the source: case name to correction factor. -/
def load_case_factors : List (String × ℚ) :=
  [(craneCase, 1.25), (stormRearCase, 1.05), (stormFrontCase, 1.02), (assemblyCase, 1.3)]

/-- Embeds the lookup load_case_factors.get(case, 1.0) of the source. -/
def getFactor (case : String) : ℚ :=
  (load_case_factors.lookup case).getD 1

/-- Result quadruple of calculate_settlement: settlement S, edge pressures
sigma_max and sigma_min, eccentricity e. -/
structure SettlementResult where
  S : ℚ
  sigma_max : ℚ
  sigma_min : ℚ
  e : ℚ
deriving DecidableEq, Repr

/-- Embeds calculate_settlement(M, H, V, B, case) of the source. The module
globals L (footing length) and E (elastic modulus) are passed explicitly.
The horizontal force H is accepted and unused, as in the source. -/
def calculate_settlement (L E M H V B : ℚ) (case : String) : SettlementResult :=
  let e := M / V
  let f_correction := getFactor case
  let sm :=
    if e ≤ B / 6 then
      ((V / (B * L)) * (1 + 6 * e / B), (V / (B * L)) * (1 - 6 * e / B))
    else
      ((2 * V) / (B * L), (0 : ℚ))
  let S := (sm.1 * B * f_correction) / E
  ⟨S, sm.1, sm.2, e⟩

/-- Embeds check_tipping(e, B) of the source. -/
def check_tipping (e B : ℚ) : String :=
  if e > B / 3 then tippingYes else tippingNo

/-- The correction factor looked up for any case name is positive: every
entry of the dictionary is positive and the default is 1. -/
theorem getFactor_pos (case : String) : 0 < getFactor case := by
  unfold getFactor load_case_factors
  simp only [List.lookup]
  repeat' split
  all_goals norm_num

/-- C3: for every eccentricity e and width B > 0, check_tipping returns the
RISK verdict iff e > B/3, and at e = B/3 exactly it returns NO_RISK. -/
theorem check_tipping_strict (e B : ℚ) (hB : 0 < B) :
    (check_tipping e B = tippingYes ↔ B / 3 < e) ∧
    check_tipping (B / 3) B = tippingNo := by
  unfold check_tipping
  constructor
  · split
    · next h => simpa using h
    · next h =>
      simp only [gt_iff_lt, not_lt] at h
      constructor
      · intro hcontra
        exact absurd hcontra (by decide)
      · intro hlt
        exact absurd hlt (not_lt_of_le h)
  · rw [if_neg (lt_irrefl _)]

/-- Concrete instance of check_tipping_strict at e = 1, B = 1. -/
theorem check_tipping_strict_witness :
    (0 : ℚ) < 1 ∧
    ((check_tipping 1 1 = tippingYes ↔ (1 : ℚ) / 3 < 1) ∧
      check_tipping ((1 : ℚ) / 3) 1 = tippingNo) :=
  ⟨by norm_num, check_tipping_strict 1 1 (by norm_num)⟩

/-- Projection: the eccentricity returned by calculate_settlement is M / V. -/
theorem cs_e (L E M H V B : ℚ) (case : String) :
    (calculate_settlement L E M H V B case).e = M / V := rfl

/-- Projection: the settlement returned by calculate_settlement is
sigma_max times B times the correction factor, divided by E. -/
theorem cs_S (L E M H V B : ℚ) (case : String) :
    (calculate_settlement L E M H V B case).S
      = ((calculate_settlement L E M H V B case).sigma_max * B * getFactor case) / E := rfl

/-- Projection: sigma_max in the linear branch. -/
theorem cs_sigma_max_le (L E M H V B : ℚ) (case : String) (h : M / V ≤ B / 6) :
    (calculate_settlement L E M H V B case).sigma_max
      = (V / (B * L)) * (1 + 6 * (M / V) / B) := by
  unfold calculate_settlement
  dsimp only
  rw [if_pos h]

/-- Projection: sigma_min in the linear branch. -/
theorem cs_sigma_min_le (L E M H V B : ℚ) (case : String) (h : M / V ≤ B / 6) :
    (calculate_settlement L E M H V B case).sigma_min
      = (V / (B * L)) * (1 - 6 * (M / V) / B) := by
  unfold calculate_settlement
  dsimp only
  rw [if_pos h]

/-- Projection: sigma_max in the triangular branch. -/
theorem cs_sigma_max_gt (L E M H V B : ℚ) (case : String) (h : ¬ M / V ≤ B / 6) :
    (calculate_settlement L E M H V B case).sigma_max = 2 * V / (B * L) := by
  unfold calculate_settlement
  dsimp only
  rw [if_neg h]

/-- Projection: sigma_min in the triangular branch is 0. -/
theorem cs_sigma_min_gt (L E M H V B : ℚ) (case : String) (h : ¬ M / V ≤ B / 6) :
    (calculate_settlement L E M H V B case).sigma_min = 0 := by
  unfold calculate_settlement
  dsimp only
  rw [if_neg h]

/-- C1: with V nonzero and B, L positive, calculate_settlement sets e = M/V;
when e is at most B/6 it returns the linear edge pressures, otherwise the
triangular ones; the boundary e = B/6 takes the linear branch. -/
theorem settlement_branches (L E M H V B : ℚ) (case : String)
    (hV : V ≠ 0) (hB : 0 < B) (hL : 0 < L) :
    (calculate_settlement L E M H V B case).e = M / V ∧
    (M / V ≤ B / 6 →
      (calculate_settlement L E M H V B case).sigma_max
          = (V / (B * L)) * (1 + 6 * (M / V) / B) ∧
      (calculate_settlement L E M H V B case).sigma_min
          = (V / (B * L)) * (1 - 6 * (M / V) / B)) ∧
    (¬ M / V ≤ B / 6 →
      (calculate_settlement L E M H V B case).sigma_max = 2 * V / (B * L) ∧
      (calculate_settlement L E M H V B case).sigma_min = 0) ∧
    (M / V = B / 6 →
      (calculate_settlement L E M H V B case).sigma_min
          = (V / (B * L)) * (1 - 6 * (M / V) / B)) :=
  ⟨cs_e L E M H V B case,
    fun h => ⟨cs_sigma_max_le L E M H V B case h, cs_sigma_min_le L E M H V B case h⟩,
    fun h => ⟨cs_sigma_max_gt L E M H V B case h, cs_sigma_min_gt L E M H V B case h⟩,
    fun h => cs_sigma_min_le L E M H V B case (le_of_eq h)⟩

/-- Concrete instance of settlement_branches at L = 2, E = 1, M = 1, H = 0,
V = 3, B = 2, with an unrecognised case name. -/
theorem settlement_branches_witness :
    ((3 : ℚ) ≠ 0 ∧ (0 : ℚ) < 2 ∧ (0 : ℚ) < 2) ∧
    ((calculate_settlement 2 1 1 0 3 2 assemblyCase).e = 1 / 3 ∧
    ((1 : ℚ) / 3 ≤ 2 / 6 →
      (calculate_settlement 2 1 1 0 3 2 assemblyCase).sigma_max
          = ((3 : ℚ) / (2 * 2)) * (1 + 6 * (1 / 3) / 2) ∧
      (calculate_settlement 2 1 1 0 3 2 assemblyCase).sigma_min
          = ((3 : ℚ) / (2 * 2)) * (1 - 6 * (1 / 3) / 2)) ∧
    (¬ (1 : ℚ) / 3 ≤ 2 / 6 →
      (calculate_settlement 2 1 1 0 3 2 assemblyCase).sigma_max = 2 * 3 / (2 * 2) ∧
      (calculate_settlement 2 1 1 0 3 2 assemblyCase).sigma_min = 0) ∧
    ((1 : ℚ) / 3 = 2 / 6 →
      (calculate_settlement 2 1 1 0 3 2 assemblyCase).sigma_min
          = ((3 : ℚ) / (2 * 2)) * (1 - 6 * (1 / 3) / 2))) :=
  ⟨⟨by norm_num, by norm_num, by norm_num⟩,
    settlement_branches 2 1 1 0 3 2 assemblyCase (by norm_num) (by norm_num) (by norm_num)⟩

/-- C2: the settlement S returned by calculate_settlement equals
sigma_max times B times the correction factor of the case, divided by E. -/
theorem settlement_formula (L E M H V B : ℚ) (case : String)
    (hV : V ≠ 0) (hB : 0 < B) (hL : 0 < L) (hE : 0 < E) :
    (calculate_settlement L E M H V B case).S
      = ((calculate_settlement L E M H V B case).sigma_max * B * getFactor case) / E :=
  cs_S L E M H V B case

/-- Concrete instance of settlement_formula at L = 1, E = 2, M = 1, H = 0,
V = 1, B = 1, crane operation case. -/
theorem settlement_formula_witness :
    ((1 : ℚ) ≠ 0 ∧ (0 : ℚ) < 1 ∧ (0 : ℚ) < 1 ∧ (0 : ℚ) < 2) ∧
    (calculate_settlement 1 2 1 0 1 1 craneCase).S
      = ((calculate_settlement 1 2 1 0 1 1 craneCase).sigma_max * 1 * getFactor craneCase) / 2 :=
  ⟨⟨by norm_num, by norm_num, by norm_num, by norm_num⟩,
    settlement_formula 1 2 1 0 1 1 craneCase (by norm_num) (by norm_num) (by norm_num) (by norm_num)⟩

/-- C4: with V, B, L positive, sigma_min is nonnegative; in the linear
branch because e at most B/6 forces 6 e / B at most 1, and past B/6 it is
exactly 0. -/
theorem sigma_min_nonneg (L E M H V B : ℚ) (case : String)
    (hV : 0 < V) (hB : 0 < B) (hL : 0 < L) :
    0 ≤ (calculate_settlement L E M H V B case).sigma_min ∧
    (B / 6 < M / V → (calculate_settlement L E M H V B case).sigma_min = 0) := by
  constructor
  · by_cases h : M / V ≤ B / 6
    · rw [cs_sigma_min_le L E M H V B case h]
      have hfrac : 6 * (M / V) / B ≤ 1 := by
        rw [div_le_one hB]
        linarith [h]
      have hpos : 0 ≤ V / (B * L) := le_of_lt (div_pos hV (mul_pos hB hL))
      exact mul_nonneg hpos (by linarith)
    · rw [cs_sigma_min_gt L E M H V B case h]
  · intro h
    exact cs_sigma_min_gt L E M H V B case (not_le.mpr h)

/-- Concrete instance of sigma_min_nonneg at L = 1, E = 1, M = 5, H = 0,
V = 1, B = 1 (triangular branch). -/
theorem sigma_min_nonneg_witness :
    ((0 : ℚ) < 1 ∧ (0 : ℚ) < 1 ∧ (0 : ℚ) < 1) ∧
    (0 ≤ (calculate_settlement 1 1 5 0 1 1 stormRearCase).sigma_min ∧
      ((1 : ℚ) / 6 < 5 / 1 → (calculate_settlement 1 1 5 0 1 1 stormRearCase).sigma_min = 0)) :=
  ⟨⟨by norm_num, by norm_num, by norm_num⟩,
    sigma_min_nonneg 1 1 5 0 1 1 stormRearCase (by norm_num) (by norm_num) (by norm_num)⟩

/-- C10: with V, B, L, E positive and eccentricity below minus B/6, the
linear branch is still taken, sigma_max is the linear formula and is
negative, and the settlement is negative: no clamp on the negative side. -/
theorem negative_eccentricity_no_clamp (L E M H V B : ℚ) (case : String)
    (hV : 0 < V) (hB : 0 < B) (hL : 0 < L) (hE : 0 < E)
    (he : M / V < -(B / 6)) :
    M / V ≤ B / 6 ∧
    (calculate_settlement L E M H V B case).sigma_max
        = (V / (B * L)) * (1 + 6 * (M / V) / B) ∧
    (calculate_settlement L E M H V B case).sigma_max < 0 ∧
    (calculate_settlement L E M H V B case).S < 0 := by
  have hle : M / V ≤ B / 6 := le_of_lt (lt_trans he (by linarith))
  have hfrac : 6 * (M / V) / B < -1 := by
    rw [div_lt_iff₀ hB]
    linarith [he]
  have hneg : (V / (B * L)) * (1 + 6 * (M / V) / B) < 0 :=
    mul_neg_of_pos_of_neg (div_pos hV (mul_pos hB hL)) (by linarith)
  have hmax := cs_sigma_max_le L E M H V B case hle
  have hmaxneg : (calculate_settlement L E M H V B case).sigma_max < 0 := by
    rw [hmax]; exact hneg
  refine ⟨hle, hmax, hmaxneg, ?_⟩
  rw [cs_S L E M H V B case]
  exact div_neg_of_neg_of_pos
    (mul_neg_of_neg_of_pos (mul_neg_of_neg_of_pos hmaxneg hB) (getFactor_pos case)) hE

/-- Concrete instance of negative_eccentricity_no_clamp at L = 1, E = 1,
M = -1, H = 0, V = 1, B = 1. -/
theorem negative_eccentricity_no_clamp_witness :
    ((0 : ℚ) < 1 ∧ (0 : ℚ) < 1 ∧ (0 : ℚ) < 1 ∧ (0 : ℚ) < 1 ∧ (-1 : ℚ) / 1 < -(1 / 6)) ∧
    ((-1 : ℚ) / 1 ≤ 1 / 6 ∧
    (calculate_settlement 1 1 (-1) 0 1 1 stormFrontCase).sigma_max
        = ((1 : ℚ) / (1 * 1)) * (1 + 6 * (-1 / 1) / 1) ∧
    (calculate_settlement 1 1 (-1) 0 1 1 stormFrontCase).sigma_max < 0 ∧
    (calculate_settlement 1 1 (-1) 0 1 1 stormFrontCase).S < 0) :=
  ⟨⟨by norm_num, by norm_num, by norm_num, by norm_num, by norm_num⟩,
    negative_eccentricity_no_clamp 1 1 (-1) 0 1 1 stormFrontCase
      (by norm_num) (by norm_num) (by norm_num) (by norm_num) (by norm_num)⟩

/-- Embeds calculate_rotation_angle(M, B, case) of the source; the module
global E is passed explicitly. The divisions and np.arctan are exact real
arithmetic; np.degrees multiplies by 180 over pi. -/
noncomputable def calculate_rotation_angle (E M B : ℚ) (case : String) : ℝ :=
  let f_correction := ((getFactor case : ℚ) : ℝ)
  let tan_alpha := (M : ℝ) / ((B : ℝ) * (E : ℝ) * f_correction)
  let alpha := Real.arctan tan_alpha
  alpha * (180 / Real.pi)

/-- Embeds the fallible division step of calculate_rotation_angle under the
Python semantics of float division: a zero divisor B * E * f raises a
ZeroDivisionError; otherwise the quotient tan_alpha is produced, and the
following arctan and degree conversion are total. -/
def rotation_tan_checked (E M B : ℚ) (case : String) : Except String ℚ :=
  let f_correction := getFactor case
  if B * E * f_correction = 0 then Except.error zeroDivisionMsg
  else Except.ok (M / (B * E * f_correction))

/-- C5: for every M, B > 0, E > 0 (the correction factor of any case being
positive), calculate_rotation_angle returns arctan of M over B E f converted
to degrees; the angle lies strictly between -90 and 90 degrees, its sign is
the sign of M, and it is 0 when M = 0. -/
theorem rotation_angle_spec (E M B : ℚ) (case : String) (hB : 0 < B) (hE : 0 < E) :
    calculate_rotation_angle E M B case
        = Real.arctan ((M : ℝ) / ((B : ℝ) * (E : ℝ) * ((getFactor case : ℚ) : ℝ)))
            * (180 / Real.pi) ∧
    -90 < calculate_rotation_angle E M B case ∧
    calculate_rotation_angle E M B case < 90 ∧
    (0 < calculate_rotation_angle E M B case ↔ 0 < M) ∧
    (calculate_rotation_angle E M B case < 0 ↔ M < 0) ∧
    (M = 0 → calculate_rotation_angle E M B case = 0) := by
  have hpi : (0 : ℝ) < Real.pi := Real.pi_pos
  have hscale : (0 : ℝ) < 180 / Real.pi := by positivity
  have hd : (0 : ℝ) < (B : ℝ) * (E : ℝ) * ((getFactor case : ℚ) : ℝ) := by
    have hf : (0 : ℚ) < getFactor case := getFactor_pos case
    have hfr : (0 : ℝ) < ((getFactor case : ℚ) : ℝ) := by exact_mod_cast hf
    have hBr : (0 : ℝ) < (B : ℝ) := by exact_mod_cast hB
    have hEr : (0 : ℝ) < (E : ℝ) := by exact_mod_cast hE
    positivity
  set x : ℝ := (M : ℝ) / ((B : ℝ) * (E : ℝ) * ((getFactor case : ℚ) : ℝ)) with hx
  have hdef : calculate_rotation_angle E M B case = Real.arctan x * (180 / Real.pi) := rfl
  have hxsign : (0 < x ↔ 0 < M) ∧ (x < 0 ↔ M < 0) := by
    constructor
    · rw [hx, lt_div_iff₀ hd, zero_mul]
      exact ⟨fun h => by exact_mod_cast h, fun h => by exact_mod_cast h⟩
    · rw [hx, div_lt_iff₀ hd, zero_mul]
      exact ⟨fun h => by exact_mod_cast h, fun h => by exact_mod_cast h⟩
  have harcsign : (0 < Real.arctan x ↔ 0 < x) ∧ (Real.arctan x < 0 ↔ x < 0) := by
    constructor
    · nth_rewrite 1 [show (0 : ℝ) = Real.arctan 0 from (Real.arctan_zero).symm]
      exact Real.arctan_strictMono.lt_iff_lt
    · nth_rewrite 1 [show (0 : ℝ) = Real.arctan 0 from (Real.arctan_zero).symm]
      exact Real.arctan_strictMono.lt_iff_lt
  have h90 : Real.pi / 2 * (180 / Real.pi) = 90 := by
    field_simp
    ring
  refine ⟨hdef, ?_, ?_, ?_, ?_, ?_⟩
  · rw [hdef, show (-90 : ℝ) = -(Real.pi / 2) * (180 / Real.pi) from by rw [neg_mul, h90]]
    exact mul_lt_mul_of_pos_right (Real.neg_pi_div_two_lt_arctan x) hscale
  · rw [hdef, ← h90]
    exact mul_lt_mul_of_pos_right (Real.arctan_lt_pi_div_two x) hscale
  · rw [hdef]
    constructor
    · intro h
      have harc : 0 < Real.arctan x := by
        by_contra hcon
        push_neg at hcon
        have : Real.arctan x * (180 / Real.pi) ≤ 0 :=
          mul_nonpos_of_nonpos_of_nonneg hcon (le_of_lt hscale)
        linarith
      exact hxsign.1.mp (harcsign.1.mp harc)
    · intro h
      exact mul_pos (harcsign.1.mpr (hxsign.1.mpr h)) hscale
  · rw [hdef]
    constructor
    · intro h
      have harc : Real.arctan x < 0 := by
        by_contra hcon
        push_neg at hcon
        have : 0 ≤ Real.arctan x * (180 / Real.pi) :=
          mul_nonneg hcon (le_of_lt hscale)
        linarith
      exact hxsign.2.mp (harcsign.2.mp harc)
    · intro h
      exact mul_neg_of_neg_of_pos (harcsign.2.mpr (hxsign.2.mpr h)) hscale
  · intro hM
    rw [hdef, hx, hM]
    norm_num

/-- Concrete instance of rotation_angle_spec at E = 20000, M = 5681,
B = 7.7, crane operation case. -/
theorem rotation_angle_spec_witness :
    ((0 : ℚ) < 7.7 ∧ (0 : ℚ) < 20000) ∧
    (calculate_rotation_angle 20000 5681 7.7 craneCase
        = Real.arctan (((5681 : ℚ) : ℝ)
              / (((7.7 : ℚ) : ℝ) * ((20000 : ℚ) : ℝ) * ((getFactor craneCase : ℚ) : ℝ)))
            * (180 / Real.pi) ∧
    -90 < calculate_rotation_angle 20000 5681 7.7 craneCase ∧
    calculate_rotation_angle 20000 5681 7.7 craneCase < 90 ∧
    (0 < calculate_rotation_angle 20000 5681 7.7 craneCase ↔ (0 : ℚ) < 5681) ∧
    (calculate_rotation_angle 20000 5681 7.7 craneCase < 0 ↔ (5681 : ℚ) < 0) ∧
    ((5681 : ℚ) = 0 → calculate_rotation_angle 20000 5681 7.7 craneCase = 0)) :=
  ⟨⟨by norm_num, by norm_num⟩,
    rotation_angle_spec 20000 5681 7.7 craneCase (by norm_num) (by norm_num)⟩

/-- C6: when E times the correction factor is 0 and B is nonzero, the
division step of calculate_rotation_angle raises a ZeroDivisionError, a
domain error, rather than returning an infinite or NaN value. -/
theorem rotation_angle_domain_error (E M B : ℚ) (case : String)
    (hB : B ≠ 0) (h0 : E * getFactor case = 0) :
    rotation_tan_checked E M B case = Except.error zeroDivisionMsg := by
  unfold rotation_tan_checked
  dsimp only
  rw [if_pos]
  rw [mul_assoc, h0, mul_zero]

/-- Concrete instance of rotation_angle_domain_error at E = 0, M = 1,
B = 1, assembly case. -/
theorem rotation_angle_domain_error_witness :
    ((1 : ℚ) ≠ 0 ∧ (0 : ℚ) * getFactor assemblyCase = 0) ∧
    rotation_tan_checked 0 1 1 assemblyCase = Except.error zeroDivisionMsg :=
  ⟨⟨by norm_num, zero_mul _⟩,
    rotation_angle_domain_error 0 1 1 assemblyCase (by norm_num) (zero_mul _)⟩

/-- Evaluation of the correction factor for the crane operation case. -/
theorem getFactor_crane : getFactor craneCase = 1.25 := by
  simp [getFactor, load_case_factors, List.lookup, craneCase, stormRearCase,
    stormFrontCase, assemblyCase]

/-- Evaluation of the correction factor for the storm front case. -/
theorem getFactor_storm_front : getFactor stormFrontCase = 1.02 := by
  simp [getFactor, load_case_factors, List.lookup, craneCase, stormRearCase,
    stormFrontCase, assemblyCase]

/-- C8 counterexample: with M = -10, V = 1, B = L = 1, E = 1, sigma_max is
negative, so raising the correction factor from the storm front value to
the larger crane value strictly decreases the settlement: S is not
strictly increasing in the correction factor without a sign condition. -/
theorem settlement_not_monotone_cx :
    getFactor stormFrontCase < getFactor craneCase ∧
    (calculate_settlement 1 1 (-10) 0 1 1 craneCase).S
      < (calculate_settlement 1 1 (-10) 0 1 1 stormFrontCase).S := by
  have hle : (-10 : ℚ) / 1 ≤ 1 / 6 := by norm_num
  have h1 := cs_S 1 1 (-10) 0 1 1 craneCase
  have h2 := cs_S 1 1 (-10) 0 1 1 stormFrontCase
  rw [cs_sigma_max_le 1 1 (-10) 0 1 1 craneCase hle] at h1
  rw [cs_sigma_max_le 1 1 (-10) 0 1 1 stormFrontCase hle] at h2
  rw [h1, h2, getFactor_crane, getFactor_storm_front]
  constructor <;> norm_num

/-- C8 amended: holding M, V, B, L, E fixed, the settlement is strictly
increasing in the correction factor provided sigma_max is positive; the
pressure sigma_max itself does not depend on the case name. -/
theorem settlement_monotone_in_factor (L E M H V B : ℚ) (c1 c2 : String)
    (hB : 0 < B) (hE : 0 < E)
    (hsigma : 0 < (calculate_settlement L E M H V B c1).sigma_max)
    (hf : getFactor c1 < getFactor c2) :
    (calculate_settlement L E M H V B c1).S < (calculate_settlement L E M H V B c2).S := by
  have hmax : (calculate_settlement L E M H V B c2).sigma_max
      = (calculate_settlement L E M H V B c1).sigma_max := rfl
  rw [cs_S L E M H V B c1, cs_S L E M H V B c2, hmax]
  rw [div_lt_div_iff_of_pos_right hE]
  exact mul_lt_mul_of_pos_left hf (mul_pos hsigma hB)

/-- Concrete instance of settlement_monotone_in_factor at L = 1, E = 1,
M = 0, V = 1, B = 1, storm front versus crane operation. -/
theorem settlement_monotone_in_factor_witness :
    ((0 : ℚ) < 1 ∧ (0 : ℚ) < 1 ∧
      0 < (calculate_settlement 1 1 0 0 1 1 stormFrontCase).sigma_max ∧
      getFactor stormFrontCase < getFactor craneCase) ∧
    (calculate_settlement 1 1 0 0 1 1 stormFrontCase).S
      < (calculate_settlement 1 1 0 0 1 1 craneCase).S :=
  ⟨⟨by norm_num, by norm_num,
      by
        rw [cs_sigma_max_le 1 1 0 0 1 1 stormFrontCase (by norm_num)]
        norm_num,
      by rw [getFactor_storm_front, getFactor_crane]; norm_num⟩,
    settlement_monotone_in_factor 1 1 0 0 1 1 stormFrontCase craneCase
      (by norm_num) (by norm_num)
      (by
        rw [cs_sigma_max_le 1 1 0 0 1 1 stormFrontCase (by norm_num)]
        norm_num)
      (by rw [getFactor_storm_front, getFactor_crane]; norm_num)⟩

/-- C9 counterexample: in scenario 1 the exact pressure 2 V / B squared is
595040 / 5929, more than 0.01 above the quoted 100.35, and the exact
settlement 3719 / 77000 is more than 0.00002 above the quoted 0.04827: the
quoted decimals are off in their last digit. -/
theorem scenario1_cx :
    100.35 + 1 / 100
        < (calculate_settlement 7.7 20000 5681 65 2975.2 7.7 craneCase).sigma_max ∧
    0.04827 + 1 / 50000
        < (calculate_settlement 7.7 20000 5681 65 2975.2 7.7 craneCase).S := by
  have hgt : ¬ (5681 : ℚ) / 2975.2 ≤ 7.7 / 6 := by norm_num
  have hmax := cs_sigma_max_gt 7.7 20000 5681 65 2975.2 7.7 craneCase hgt
  have hS := cs_S 7.7 20000 5681 65 2975.2 7.7 craneCase
  rw [hmax, getFactor_crane] at hS
  rw [hmax, hS]
  constructor <;> norm_num

/-- C9 amended: scenario 1 evaluated exactly: the eccentricity is
5681 / 2975.2, about 1.9094, above B/6, so the triangular branch gives
sigma_max = 2 times 2975.2 over 7.7 squared, about 100.36, sigma_min = 0,
and S = sigma_max times 7.7 times 1.25 over 20000, about 0.04830. -/
theorem scenario1_exact :
    (calculate_settlement 7.7 20000 5681 65 2975.2 7.7 craneCase).e = 5681 / 2975.2 ∧
    7.7 / 6 < (calculate_settlement 7.7 20000 5681 65 2975.2 7.7 craneCase).e ∧
    1.9094 < (calculate_settlement 7.7 20000 5681 65 2975.2 7.7 craneCase).e ∧
    (calculate_settlement 7.7 20000 5681 65 2975.2 7.7 craneCase).e < 1.9095 ∧
    (calculate_settlement 7.7 20000 5681 65 2975.2 7.7 craneCase).sigma_max
        = 2 * 2975.2 / (7.7 * 7.7) ∧
    100.36 < (calculate_settlement 7.7 20000 5681 65 2975.2 7.7 craneCase).sigma_max ∧
    (calculate_settlement 7.7 20000 5681 65 2975.2 7.7 craneCase).sigma_max < 100.37 ∧
    (calculate_settlement 7.7 20000 5681 65 2975.2 7.7 craneCase).sigma_min = 0 ∧
    (calculate_settlement 7.7 20000 5681 65 2975.2 7.7 craneCase).S
        = ((calculate_settlement 7.7 20000 5681 65 2975.2 7.7 craneCase).sigma_max
            * 7.7 * 1.25) / 20000 ∧
    0.04829 < (calculate_settlement 7.7 20000 5681 65 2975.2 7.7 craneCase).S ∧
    (calculate_settlement 7.7 20000 5681 65 2975.2 7.7 craneCase).S < 0.04830 := by
  have hgt : ¬ (5681 : ℚ) / 2975.2 ≤ 7.7 / 6 := by norm_num
  have he := cs_e 7.7 20000 5681 65 2975.2 7.7 craneCase
  have hmax := cs_sigma_max_gt 7.7 20000 5681 65 2975.2 7.7 craneCase hgt
  have hmin := cs_sigma_min_gt 7.7 20000 5681 65 2975.2 7.7 craneCase hgt
  have hS := cs_S 7.7 20000 5681 65 2975.2 7.7 craneCase
  have hS2 := hS
  rw [hmax, getFactor_crane] at hS2
  refine ⟨he, ?_, ?_, ?_, hmax, ?_, ?_, hmin, ?_, ?_, ?_⟩
  · rw [he]; norm_num
  · rw [he]; norm_num
  · rw [he]; norm_num
  · rw [hmax]; norm_num
  · rw [hmax]; norm_num
  · rw [hS, getFactor_crane]
  · rw [hS2]; norm_num
  · rw [hS2]; norm_num

/-- Evaluation of the correction factor for the storm rear case. -/
theorem getFactor_storm_rear : getFactor stormRearCase = 1.05 := by
  simp [getFactor, load_case_factors, List.lookup, craneCase, stormRearCase,
    stormFrontCase, assemblyCase]

/-- Evaluation of the correction factor for the assembly case. -/
theorem getFactor_assembly : getFactor assemblyCase = 1.3 := by
  simp [getFactor, load_case_factors, List.lookup, craneCase, stormRearCase,
    stormFrontCase, assemblyCase]

/-- Per-case output collected by the Run Calculations loop: the settlement
result, the tipping verdict string, and the quotient tan_alpha of the
rotation step. The angle reported by the source is arctan of tan_alpha in
degrees; arctan and the degree conversion are total, so only the quotient
is recorded here. -/
structure CaseResult where
  settlement : SettlementResult
  tipping : String
  tan_alpha : ℚ
deriving DecidableEq, Repr

/-- Embeds one iteration of the Run Calculations loop under the Python
semantics of float division: e = M / V raises when V = 0, the pressure
divisions raise when B * L = 0, the settlement division raises when E = 0,
and the rotation division raises when B * E * f is 0. -/
def run_case (L E B : ℚ) (case : String) (M Hf V : ℚ) : Except String CaseResult :=
  if V = 0 then Except.error zeroDivisionMsg
  else if B * L = 0 then Except.error zeroDivisionMsg
  else if E = 0 then Except.error zeroDivisionMsg
  else if B * E * getFactor case = 0 then Except.error zeroDivisionMsg
  else
    Except.ok ⟨calculate_settlement L E M Hf V B case,
      check_tipping (calculate_settlement L E M Hf V B case).e B,
      M / (B * E * getFactor case)⟩

/-- The loads dictionary of the source: case name to (M, H, V). -/
def loads : List (String × ℚ × ℚ × ℚ) :=
  [(craneCase, 5681.0, 65.0, 2975.2),
   (stormRearCase, 6380.0, 150.0, 2925.2),
   (stormFrontCase, 6980.0, 100.0, 2925.2),
   (assemblyCase, 3980.0, 50.0, 2705.2)]

/-- Embeds the Run Calculations loop: cases are processed in order; the
first component collects the results computed before any failure, the
second is the error of the first failing case, if any. The source performs
no input validation before this loop. -/
def run_calculations (L E B : ℚ) :
    List (String × ℚ × ℚ × ℚ) → List (String × CaseResult) × Option String
  | [] => ([], none)
  | (case, M, Hf, V) :: rest =>
    match run_case L E B case M Hf V with
    | Except.error s => ([], some s)
    | Except.ok r =>
      let p := run_calculations L E B rest
      ((case, r) :: p.1, p.2)

/-- C7: the loop performs no validation. With non-positive geometry
B = L = -1 all four built-in cases are processed and no error of any kind
is raised; with a second load case whose vertical force V is 0, the loop
raises a ZeroDivisionError only when that case is reached, after the first
case has already been computed. -/
theorem run_no_validation_cx :
    (run_calculations (-1) 20000 (-1) loads).2 = none ∧
    (run_calculations (-1) 20000 (-1) loads).1.length = 4 ∧
    (run_calculations 7.7 20000 7.7
        [(assemblyCase, 3980, 50, 2705.2), (craneCase, 100, 0, 0)]).2
      = some zeroDivisionMsg ∧
    (run_calculations 7.7 20000 7.7
        [(assemblyCase, 3980, 50, 2705.2), (craneCase, 100, 0, 0)]).1.length = 1 := by
  norm_num [run_calculations, run_case, loads, getFactor_crane, getFactor_storm_rear,
    getFactor_storm_front, getFactor_assembly]
